import Mathlib

/-!
Verification development for `privacyidea/lib/eventhandler/tokenhandler.py`
(the `TokenEventHandler` class): a shallow embedding of the action-schema
registry (`actions`) and the dispatch method (`do`), together with theorems
about target resolution, option coercion and the collaborator-call traces.

External collaborators (the token library `set_realms`, `remove_token`,
`enable_token`, `unassign_token`, `init_token`, `set_description`,
`set_count_window`, `add_tokeninfo`, `set_validity_period_start`,
`set_validity_period_end`, the realm enumeration `get_realms`, the
token-type enumeration `get_token_types`, the owner lookup
`_get_tokenowner` and the date helper `parse_date`/`DATE_FORMAT`) are not
part of the source file; calls to them are recorded as an explicit trace,
and the composite `parse_date(x).strftime(DATE_FORMAT)` is abstracted as a
function parameter.
-/

/-- A loosely-typed configuration value as it may arrive in
`handler_options`: Python strings, integers or booleans. -/
inductive Value where
  | str (s : String)
  | int (n : Int)
  | bool (b : Bool)
  deriving DecidableEq, Repr

/-- Python `==` on the modelled value domain: `1 == True` and `0 == False`
hold across the int/bool kinds, strings compare only with strings. -/
def Value.pyEq : Value → Value → Bool
  | .str a, .str b => a == b
  | .int a, .int b => a == b
  | .bool a, .bool b => a == b
  | .int a, .bool b => a == (if b then (1 : Int) else 0)
  | .bool a, .int b => (if a then (1 : Int) else 0) == b
  | _, _ => false

/-- Python truthiness of a value: `""`, `0` and `False` are falsy. -/
def Value.truthy : Value → Bool
  | .str s => s ≠ ""
  | .int n => n ≠ 0
  | .bool b => b

/-- Python truthiness of an optional string (`None` and `""` are falsy),
as used by the `or` chain and the `if serial:` test in `do`. -/
def strTruthy : Option String → Bool
  | none => false
  | some s => s ≠ ""

/-- Python truthiness of an optional configuration value (`None` falsy). -/
def optTruthy : Option Value → Bool
  | none => false
  | some v => v.truthy

/-- Python `x or ""` on an optional value, as in
`handler_options.get("value") or ""` (line 239 of the source). -/
def pyOrEmptyStr : Option Value → Value
  | none => Value.str ""
  | some v => if v.truthy then v else Value.str ""

/-- Value of a decimal digit character, `none` for a non-digit. -/
def digitVal (c : Char) : Option Nat :=
  if c.isDigit then some (c.toNat - '0'.toNat) else none

/-- Digits of a decimal literal to a natural number; `none` when the list
is empty or contains a non-digit. -/
def digitsToNat : List Char → Option Nat
  | [] => none
  | [c] => digitVal c
  | c :: rest =>
    match digitVal c, digitsToNat rest with
    | some d, some r => some (d * 10 ^ rest.length + r)
    | _, _ => none

/-- Surrounding whitespace stripped from a character list. -/
def stripWs (l : List Char) : List Char :=
  ((l.dropWhile fun c => c.isWhitespace).reverse.dropWhile
    fun c => c.isWhitespace).reverse

/-- Python `int(s)` on a string: strip surrounding whitespace, optional
sign, then a non-empty digit run; `none` models a raised `ValueError`. -/
def pyStrToInt (s : String) : Option Int :=
  match stripWs s.data with
  | '+' :: rest => (digitsToNat rest).map Int.ofNat
  | '-' :: rest => (digitsToNat rest).map (fun n => -(n : Int))
  | l => (digitsToNat l).map Int.ofNat

/-- Python `int(v)` on a modelled value: identity on integers, `True`/`False`
to `1`/`0`, string parse for strings; `none` models a raised `ValueError`. -/
def pyInt : Value → Option Int
  | .str s => pyStrToInt s
  | .int n => some n
  | .bool b => some (if b then 1 else 0)

/-- Python `dict.get(k)` on the handler-options mapping, modelled as an
association list with first-match lookup. -/
def getopt (opts : List (String × Value)) (k : String) : Option Value :=
  (opts.find? (fun p => p.1 == k)).map Prod.snd

/-- Python `dict.get(k, d)` with a default value. -/
def getoptD (opts : List (String × Value)) (k : String) (d : Value) : Value :=
  (getopt opts k).getD d

/-- The `detail` section of the parsed response body; only its `serial`
field is read by `do`. -/
structure ContentDetail where
  serial : Option String
  deriving DecidableEq, Repr

/-- The parsed JSON response body (`content = json.loads(response.data)`):
only `content.get("detail", {}).get("serial")` is read by `do`. -/
structure Content where
  detail : Option ContentDetail
  deriving DecidableEq, Repr

/-- The read `content.get("detail", {}).get("serial")` (line 202). -/
def contentDetailSerial (c : Content) : Option String :=
  match c.detail with
  | none => none
  | some d => d.serial

/-- The per-invocation event context carried by the `options` dict of `do`:
`request.all_data.get("serial")`, the response body (as its JSON parse
result, `none` when `json.loads` raises), the field
`audit_data.get("serial")` of the audit record, and
`handler_def["options"]`. -/
structure EventContext where
  requestSerial : Option String
  responseData : Option Content
  auditSerial : Option String
  handlerOptions : List (String × Value)
  deriving DecidableEq, Repr

/-- One collaborator call made by `do`, with the arguments the source
passes. `get_tokenowner` is the owner lookup `self._get_tokenowner(request)`;
`init_token` records the enrollment spec fields and whether an owner was
attached. -/
inductive Call where
  | set_realms (serial : String) (realms : List (Option Value)) (add : Bool)
  | remove_token (serial : String)
  | enable_token (serial : String) (enable : Bool)
  | unassign_token (serial : String)
  | set_description (serial : String) (description : Value)
  | set_count_window (serial : String) (window : Int)
  | add_tokeninfo (serial : String) (key : Option Value) (value : Value)
  | set_validity_period_start (serial : String) (date : String)
  | set_validity_period_end (serial : String) (date : String)
  | get_tokenowner
  | init_token (tokentype : Option Value) (realm : Value) (withUser : Bool)
  deriving DecidableEq, Repr

/-- Python exceptions `do` can raise in the embedding: `json.loads`
failure and `int()` conversion failure. -/
inductive PyErr where
  | jsonDecodeError
  | valueError
  deriving DecidableEq, Repr

namespace ACTION_TYPE

/-- Allowed action identifier, class `ACTION_TYPE`. -/
def SET_TOKENREALM : String := "set tokenrealm"

/-- Allowed action identifier, class `ACTION_TYPE`. -/
def DELETE : String := "delete"

/-- Allowed action identifier, class `ACTION_TYPE`. -/
def UNASSIGN : String := "unassign"

/-- Allowed action identifier, class `ACTION_TYPE`. -/
def DISABLE : String := "disable"

/-- Allowed action identifier, class `ACTION_TYPE`. -/
def ENABLE : String := "enable"

/-- Allowed action identifier, class `ACTION_TYPE`. -/
def INIT : String := "enroll"

/-- Allowed action identifier, class `ACTION_TYPE`. -/
def SET_DESCRIPTION : String := "set description"

/-- Allowed action identifier, class `ACTION_TYPE`. -/
def SET_VALIDITY : String := "set validity"

/-- Allowed action identifier, class `ACTION_TYPE`. -/
def SET_COUNTWINDOW : String := "set countwindow"

/-- Allowed action identifier, class `ACTION_TYPE`. -/
def SET_TOKENINFO : String := "set tokeninfo"

end ACTION_TYPE

namespace VALIDITY

/-- Validity option key, class `VALIDITY`. -/
def START : String := "valid from"

/-- Validity option key, class `VALIDITY`. -/
def END : String := "valid till"

end VALIDITY

/-- Python `str.lower()`, modelled by the ASCII case mapping (the action
identifiers are ASCII). -/
def pyLower (s : String) : String := String.mk (s.data.map Char.toLower)

/-- The list of target-requiring actions tested on lines 205-211 of the
source (`if action.lower() in [...]`). -/
def targetActions : List String :=
  [ACTION_TYPE.SET_TOKENREALM, ACTION_TYPE.SET_DESCRIPTION,
   ACTION_TYPE.DELETE, ACTION_TYPE.DISABLE, ACTION_TYPE.ENABLE,
   ACTION_TYPE.UNASSIGN, ACTION_TYPE.SET_VALIDITY,
   ACTION_TYPE.SET_COUNTWINDOW, ACTION_TYPE.SET_TOKENINFO]

/-- All ten registered action identifiers of the handler. -/
def registryActions : List String := targetActions ++ [ACTION_TYPE.INIT]

/-- Target resolution, lines 201-203 of the source:
`serial = request.all_data.get("serial") or
content.get("detail", {}).get("serial") or
g.audit_object.audit_data.get("serial")` with Python `or` semantics
(a falsy candidate, `None` or `""`, falls through to the next). -/
def resolveSerial (requestSerial contentSerial auditSerial : Option String) :
    Option String :=
  if strTruthy requestSerial then requestSerial
  else if strTruthy contentSerial then contentSerial
  else auditSerial

/-- The membership test `handler_options.get("user") in ["1", 1, True]`
of line 258, with Python `==` list membership (`None` is in no list). -/
def userFlag (o : Option Value) : Bool :=
  match o with
  | none => false
  | some v =>
    v.pyEq (Value.str "1") || v.pyEq (Value.int 1) || v.pyEq (Value.bool true)

namespace TokenEventHandler

/-- The elif chain of the target-requiring branch of `do` (lines 214-250),
entered with a truthy resolved serial `s`. `parse_date_strftime` abstracts
the external composite `parse_date(x).strftime(DATE_FORMAT)`. A raised
`ValueError` from `int()` in the set-countwindow arm is `Except.error`. -/
def targetBranch (parse_date_strftime : Value → String) (action : String)
    (handler_options : List (String × Value)) (s : String) :
    Except PyErr (List Call) :=
  if pyLower action == ACTION_TYPE.SET_TOKENREALM then
    let realm := getopt handler_options "realm"
    let only_realm := getopt handler_options "only_realm"
    Except.ok [Call.set_realms s [realm] true]
  else if pyLower action == ACTION_TYPE.DELETE then
    Except.ok [Call.remove_token s]
  else if pyLower action == ACTION_TYPE.DISABLE then
    Except.ok [Call.enable_token s false]
  else if pyLower action == ACTION_TYPE.ENABLE then
    Except.ok [Call.enable_token s true]
  else if pyLower action == ACTION_TYPE.UNASSIGN then
    Except.ok [Call.unassign_token s]
  else if pyLower action == ACTION_TYPE.SET_DESCRIPTION then
    Except.ok [Call.set_description s
      (getoptD handler_options "description" (Value.str ""))]
  else if pyLower action == ACTION_TYPE.SET_COUNTWINDOW then
    match pyInt (getoptD handler_options "count window" (Value.int 50)) with
    | none => Except.error PyErr.valueError
    | some n => Except.ok [Call.set_count_window s n]
  else if pyLower action == ACTION_TYPE.SET_TOKENINFO then
    Except.ok [Call.add_tokeninfo s (getopt handler_options "key")
      (pyOrEmptyStr (getopt handler_options "value"))]
  else if pyLower action == ACTION_TYPE.SET_VALIDITY then
    let start_date := getopt handler_options VALIDITY.START
    let end_date := getopt handler_options VALIDITY.END
    Except.ok
      ((if optTruthy start_date then
          [Call.set_validity_period_start s
            (parse_date_strftime (start_date.getD (Value.str "")))]
        else []) ++
       (if optTruthy end_date then
          [Call.set_validity_period_end s
            (parse_date_strftime (end_date.getD (Value.str "")))]
        else []))
  else
    Except.ok []

/-- The enroll branch of `do` (lines 256-266): optional owner lookup
`self._get_tokenowner(request)` driven by the tri-representation test on
`handler_options.get("user")`, then the `init_token` creation call. -/
def enrollBranch (handler_options : List (String × Value)) : List Call :=
  (if userFlag (getopt handler_options "user") then
    [Call.get_tokenowner]
  else []) ++
  [Call.init_token (getopt handler_options "tokentype")
    (getoptD handler_options "realm" (Value.str ""))
    (userFlag (getopt handler_options "user"))]

/-- The `do` method of `TokenEventHandler` (lines 183-268), embedded as a
function from the event context to the pair of the return value and the
trace of collaborator calls, raising via `Except.error`: parse the
response body, resolve the serial, run the target-requiring branch when
`action.lower()` is in the list of lines 205-211 and the serial is truthy,
then run the enroll branch when `action.lower()` equals `enroll`. -/
def doAction (parse_date_strftime : Value → String) (action : String)
    (ctx : EventContext) : Except PyErr (Bool × List Call) :=
  match ctx.responseData with
  | none => Except.error PyErr.jsonDecodeError
  | some content =>
    let handler_options := ctx.handlerOptions
    let serial := resolveSerial ctx.requestSerial (contentDetailSerial content)
        ctx.auditSerial
    let firstBranch : Except PyErr (List Call) :=
      if pyLower action ∈ targetActions then
        if strTruthy serial then
          targetBranch parse_date_strftime action handler_options
            (serial.getD "")
        else
          Except.ok []
      else
        Except.ok []
    match firstBranch with
    | Except.error e => Except.error e
    | Except.ok calls1 =>
      let calls2 :=
        if pyLower action == ACTION_TYPE.INIT then
          enrollBranch handler_options
        else []
      Except.ok (true, calls1 ++ calls2)

end TokenEventHandler

/-- One configurable option of one action as described by the registry:
its `type` string, whether it is `required` (absent in the source dict
means not required), its human-readable `description`, and the optional
dynamically-populated `value` list of allowed values. -/
structure OptionDescriptor where
  type : String
  required : Bool := false
  description : String
  value : Option (List String) := none
  deriving DecidableEq, Repr

namespace TokenEventHandler

/-- The `actions` property of `TokenEventHandler` (lines 85-181): the
dictionary of the ten actions and their option descriptors. The realm
enumeration `get_realms().keys()` and the token-type enumeration
`get_token_types()` are collaborator reads performed on every evaluation
of the property; they enter here as the arguments `realm_list` and
`token_types`, so the result is a function of the state of the
collaborators at call time. -/
def actions (realm_list : List String) (token_types : List String) :
    List (String × List (String × OptionDescriptor)) :=
  [(ACTION_TYPE.SET_TOKENREALM,
     [("realm",
        { type := "str", required := true,
          description := "set a new realm of the token",
          value := some realm_list }),
      ("only_realm",
        { type := "bool",
          description := "The new realm will be the only realm of the "
            ++ "token. I.e. all other realms will be removed from this "
            ++ "token. Otherwise the realm will be added to the token." })]),
   (ACTION_TYPE.DELETE, []),
   (ACTION_TYPE.UNASSIGN, []),
   (ACTION_TYPE.DISABLE, []),
   (ACTION_TYPE.ENABLE, []),
   (ACTION_TYPE.INIT,
     [("tokentype",
        { type := "str", required := true,
          description := "Token type to create",
          value := some token_types }),
      ("user",
        { type := "bool",
          description := "Assign token to user in request or tokenowner." }),
      ("realm",
        { type := "str", required := false,
          description := "Set the realm of the newly created token.",
          value := some realm_list })]),
   (ACTION_TYPE.SET_DESCRIPTION,
     [("description",
        { type := "str",
          description := "The new description of the token." })]),
   (ACTION_TYPE.SET_VALIDITY,
     [(VALIDITY.START,
        { type := "str",
          description := "The token will be valid starting at the given "
            ++ "date. Can be a fixed date or an offset like +10m, +24h, +7d." }),
      (VALIDITY.END,
        { type := "str",
          description := "The token will be valid until the given date. "
            ++ "Can be a fixed date or an offset like +10m, +24h, +7d." })]),
   (ACTION_TYPE.SET_COUNTWINDOW,
     [("count window",
        { type := "str", required := true,
          description := "Set the new count window of the token." })]),
   (ACTION_TYPE.SET_TOKENINFO,
     [("key",
        { type := "str", required := true,
          description := "Set this tokeninfo key." }),
      ("value",
        { type := "str",
          description := "Set the above key the this value." })])]

end TokenEventHandler

/-- Look up the descriptor of option `o` of action `a` in a registry
dictionary. -/
def lookupOpt (acts : List (String × List (String × OptionDescriptor)))
    (a o : String) : Option OptionDescriptor :=
  match acts.find? (fun p => p.1 == a) with
  | none => none
  | some (_, opts) => (opts.find? (fun p => p.1 == o)).map Prod.snd

/-- Whether a collaborator call mutates state: every call except the
read-only owner lookup. -/
def Call.isMutation : Call → Bool
  | Call.get_tokenowner => false
  | _ => true

/-- Number of mutating collaborator calls in a trace. -/
def countMutations (t : List Call) : Nat :=
  (t.filter Call.isMutation).length

/-- The trace of a `doAction` outcome (empty when it raised). -/
def callsOf : Except PyErr (Bool × List Call) → List Call
  | Except.ok (_, t) => t
  | Except.error _ => []

/-- A fixed stand-in for the external `parse_date(x).strftime(DATE_FORMAT)`
composite, used to instantiate theorems at concrete inputs. -/
def pdConst : Value → String := fun _ => "2017-01-01 10:00"

/-- Concrete context: response body that is not valid JSON. -/
def ctxNoJson : EventContext :=
  { requestSerial := some "X", responseData := none,
    auditSerial := none, handlerOptions := [] }

/-- Concrete context: valid JSON response without a detail section, serial
supplied in the request data. -/
def ctxEnable : EventContext :=
  { requestSerial := some "S", responseData := some { detail := none },
    auditSerial := none, handlerOptions := [] }

/-- C1: target resolution selects the serial by strict precedence:
the request-data serial when non-empty and non-null, otherwise the
response detail serial when non-empty and non-null, otherwise the audit
serial; in particular request "A" beats detail "B", and with no request
serial, detail "B" beats audit "C". -/
theorem C1_target_resolution_precedence :
    (∀ rs cs aud, strTruthy rs = true → resolveSerial rs cs aud = rs)
    ∧ (∀ rs cs aud, strTruthy rs = false → strTruthy cs = true →
        resolveSerial rs cs aud = cs)
    ∧ (∀ rs cs aud, strTruthy rs = false → strTruthy cs = false →
        resolveSerial rs cs aud = aud)
    ∧ (∀ aud, resolveSerial (some "A") (some "B") aud = some "A")
    ∧ resolveSerial none (some "B") (some "C") = some "B" := by
  refine ⟨?_, ?_, ?_, ?_, ?_⟩
  · intro rs cs aud h; simp [resolveSerial, h]
  · intro rs cs aud h1 h2; simp [resolveSerial, h1, h2]
  · intro rs cs aud h1 h2; simp [resolveSerial, h1, h2]
  · intro aud; simp +decide [resolveSerial]
  · rfl

/-- Witness for C1 at concrete inputs. -/
theorem C1_target_resolution_precedence_witness :
    resolveSerial (some "A") (some "B") (some "C") = some "A"
    ∧ resolveSerial none (some "B") (some "C") = some "B"
    ∧ resolveSerial none none (some "C") = some "C" :=
  ⟨C1_target_resolution_precedence.1 (some "A") (some "B") (some "C")
      (by decide),
   C1_target_resolution_precedence.2.1 none (some "B") (some "C")
      (by decide) (by decide),
   C1_target_resolution_precedence.2.2.1 none none (some "C")
      (by decide) (by decide)⟩

/-- C9: every query of the `actions` registry reflects the realm and
token-type enumerations passed from the collaborators at call time: the
allowed-value lists of `set tokenrealm`/`realm`, `enroll`/`tokentype` and
`enroll`/`realm` equal the current enumerations, whatever they are. -/
theorem C9_actions_fresh_enumerations :
    ∀ realm_list token_types : List String,
      (lookupOpt (TokenEventHandler.actions realm_list token_types)
          ACTION_TYPE.SET_TOKENREALM "realm").map OptionDescriptor.value
        = some (some realm_list)
      ∧ (lookupOpt (TokenEventHandler.actions realm_list token_types)
          ACTION_TYPE.INIT "tokentype").map OptionDescriptor.value
        = some (some token_types)
      ∧ (lookupOpt (TokenEventHandler.actions realm_list token_types)
          ACTION_TYPE.INIT "realm").map OptionDescriptor.value
        = some (some realm_list) := by
  intro r t
  exact ⟨rfl, rfl, rfl⟩

/-- C10: the response body is parsed as JSON before any dispatch branch:
when the parse fails `do` raises for every action with no collaborator
call, and a successful return presupposes a parseable response body. -/
theorem C10_json_parse_precedes_dispatch :
    (∀ pd action ctx, ctx.responseData = none →
      TokenEventHandler.doAction pd action ctx
        = Except.error PyErr.jsonDecodeError
      ∧ callsOf (TokenEventHandler.doAction pd action ctx) = [])
    ∧ (∀ pd action ctx r, TokenEventHandler.doAction pd action ctx
        = Except.ok r → ctx.responseData.isSome = true) := by
  constructor
  · intro pd action ctx h
    constructor
    · rw [TokenEventHandler.doAction, h]
    · rw [TokenEventHandler.doAction, h]
      rfl
  · intro pd action ctx r h
    cases hrd : ctx.responseData with
    | none =>
      rw [TokenEventHandler.doAction, hrd] at h
      exact absurd h (by simp)
    | some c => rfl

/-- Witness for C10 at concrete inputs: an invalid response body makes
`do` raise, and a successful `enable` run had a parseable body. -/
theorem C10_json_parse_precedes_dispatch_witness :
    (TokenEventHandler.doAction pdConst "enable" ctxNoJson
        = Except.error PyErr.jsonDecodeError
      ∧ callsOf (TokenEventHandler.doAction pdConst "enable" ctxNoJson) = [])
    ∧ (EventContext.responseData ctxEnable).isSome = true :=
  ⟨C10_json_parse_precedes_dispatch.1 pdConst "enable" ctxNoJson rfl,
   C10_json_parse_precedes_dispatch.2 pdConst "enable" ctxEnable
     (true, [Call.enable_token "S" true]) (by rfl)⟩

/-- Congruence of the target branch in the action name: it reads the
action only through `action.lower()`. -/
theorem targetBranch_lower_congr (pd : Value → String) {a b : String}
    (h : pyLower a = pyLower b) (ho : List (String × Value)) (s : String) :
    TokenEventHandler.targetBranch pd a ho s
      = TokenEventHandler.targetBranch pd b ho s := by
  unfold TokenEventHandler.targetBranch
  rw [h]

/-- An action name in the target-requiring list does not normalize to
`enroll`. -/
theorem mem_targetActions_ne_init {a : String} (h : a ∈ targetActions) :
    (a == ACTION_TYPE.INIT) = false := by
  rw [beq_eq_false_iff_ne]
  intro hEq
  rw [hEq] at h
  exact absurd h (by decide)

/-- C2: for every target-requiring action, when the request data, the
response detail section and the audit data all lack a non-empty serial,
`do` performs no collaborator call and still returns success. -/
theorem C2_missing_serial_noop :
    ∀ pd action ctx content,
      ctx.responseData = some content →
      pyLower action ∈ targetActions →
      strTruthy ctx.requestSerial = false →
      strTruthy (contentDetailSerial content) = false →
      strTruthy ctx.auditSerial = false →
      TokenEventHandler.doAction pd action ctx = Except.ok (true, []) := by
  intro pd action ctx content hrd hmem h1 h2 h3
  have hser : strTruthy (resolveSerial ctx.requestSerial
      (contentDetailSerial content) ctx.auditSerial) = false := by
    simp [resolveSerial, h1, h2, h3]
  have hne := mem_targetActions_ne_init hmem
  simp [TokenEventHandler.doAction, hrd, hser, hmem, hne]

/-- Concrete context: no serial anywhere, valid JSON response. -/
def ctxNoSerial : EventContext :=
  { requestSerial := none, responseData := some { detail := none },
    auditSerial := none, handlerOptions := [] }

/-- Witness for C2: the delete action with no serial in any source is a
no-op returning success. -/
theorem C2_missing_serial_noop_witness :
    TokenEventHandler.doAction pdConst "delete" ctxNoSerial
      = Except.ok (true, []) :=
  C2_missing_serial_noop pdConst "delete" ctxNoSerial { detail := none }
    rfl (by decide) rfl rfl rfl

/-- C5: an action name that does not normalize to one of the ten
registered identifiers yields no collaborator call and success, and
dispatch depends on the action name only through case normalization. -/
theorem C5_unrecognized_noop_case_insensitive :
    (∀ pd action ctx content,
      ctx.responseData = some content →
      pyLower action ∉ registryActions →
      TokenEventHandler.doAction pd action ctx = Except.ok (true, []))
    ∧ (∀ pd a b ctx, pyLower a = pyLower b →
        TokenEventHandler.doAction pd a ctx
          = TokenEventHandler.doAction pd b ctx) := by
  constructor
  · intro pd action ctx content hrd hmem
    rw [registryActions] at hmem
    simp only [List.mem_append, List.mem_singleton, not_or] at hmem
    obtain ⟨hmem1, hne'⟩ := hmem
    have hne : (pyLower action == ACTION_TYPE.INIT) = false := by
      rw [beq_eq_false_iff_ne]
      exact hne'
    simp [TokenEventHandler.doAction, hrd, hmem1, hne]
  · intro pd a b ctx h
    unfold TokenEventHandler.doAction
    cases ctx.responseData with
    | none => rfl
    | some content =>
      simp only [h, targetBranch_lower_congr pd h]

/-- Witness for C5: the unregistered action name "revoke" is a silent
no-op, and "ENABLE" dispatches exactly as "enable". -/
theorem C5_unrecognized_noop_case_insensitive_witness :
    TokenEventHandler.doAction pdConst "revoke" ctxEnable
      = Except.ok (true, [])
    ∧ TokenEventHandler.doAction pdConst "ENABLE" ctxEnable
      = TokenEventHandler.doAction pdConst "enable" ctxEnable :=
  ⟨C5_unrecognized_noop_case_insensitive.1 pdConst "revoke" ctxEnable
      { detail := none } rfl (by decide),
   C5_unrecognized_noop_case_insensitive.2 pdConst "ENABLE" "enable"
      ctxEnable (by decide)⟩

/-- Concrete context for the set-tokenrealm action: resolved serial
"SomeSerial", configured realm "realm2" and a configurable only_realm
flag value. -/
def ctxOnlyRealm (v : Value) : EventContext :=
  { requestSerial := some "SomeSerial",
    responseData := some { detail := none },
    auditSerial := none,
    handlerOptions := [("realm", Value.str "realm2"), ("only_realm", v)] }

/-- C3: the set-tokenrealm action adds the configured realm with the
additive flag set, and its outcome is independent of the configured
`only_realm` value: the flag is read but never passed to the
`set_realms` collaborator call, which is always `add=True`. This
contradicts the own `only_realm` option description of the handler, which
promises that the new realm replaces all other realms of the token. -/
theorem C3_only_realm_ignored :
    ∀ pd v,
      TokenEventHandler.doAction pd ACTION_TYPE.SET_TOKENREALM
          (ctxOnlyRealm v)
        = Except.ok (true,
            [Call.set_realms "SomeSerial" [some (Value.str "realm2")] true]) := by
  intro pd v
  rfl

/-- Reduction of `do` for a target-requiring action with a truthy
resolved serial: it runs the elif chain and tags the result with the
success flag; the enroll branch does not fire. -/
theorem doAction_target (pd : Value → String) (action : String)
    (ctx : EventContext) (content : Content) (s : String)
    (hrd : ctx.responseData = some content)
    (hmem : pyLower action ∈ targetActions)
    (hser : resolveSerial ctx.requestSerial (contentDetailSerial content)
      ctx.auditSerial = some s)
    (hs : s ≠ "") :
    TokenEventHandler.doAction pd action ctx
      = match TokenEventHandler.targetBranch pd action ctx.handlerOptions s
          with
        | Except.error e => Except.error e
        | Except.ok c => Except.ok (true, c) := by
  have hne := mem_targetActions_ne_init hmem
  have hst : strTruthy (some s) = true := by simp [strTruthy, hs]
  unfold TokenEventHandler.doAction
  rw [hrd]
  simp only [hser, hst, hmem, if_true, hne, Option.getD_some, Bool.false_eq_true,
    if_false, ite_true, ite_false]
  cases TokenEventHandler.targetBranch pd action ctx.handlerOptions s with
  | error e => rfl
  | ok c => simp

/-- Reduction of `do` for the enroll action: the target-requiring branch
does not fire and the trace is the enroll branch. -/
theorem doAction_enroll (pd : Value → String) (ctx : EventContext)
    (content : Content) (hrd : ctx.responseData = some content) :
    TokenEventHandler.doAction pd ACTION_TYPE.INIT ctx
      = Except.ok (true, TokenEventHandler.enrollBranch ctx.handlerOptions) := by
  unfold TokenEventHandler.doAction
  rw [hrd]
  simp +decide

/-- The tri-representation membership test accepts exactly the string
"1", the integer 1 and the boolean True. -/
theorem userFlag_iff (v : Value) :
    userFlag (some v) = true ↔
      v = Value.str "1" ∨ v = Value.int 1 ∨ v = Value.bool true := by
  cases v with
  | str s => simp [userFlag, Value.pyEq]
  | int n => simp [userFlag, Value.pyEq]
  | bool b => cases b <;> simp +decide [userFlag, Value.pyEq]

/-- Reduction of the elif chain at the set-countwindow action. -/
theorem targetBranch_countwindow (pd : Value → String)
    (ho : List (String × Value)) (s : String) :
    TokenEventHandler.targetBranch pd ACTION_TYPE.SET_COUNTWINDOW ho s
      = match pyInt (getoptD ho "count window" (Value.int 50)) with
        | none => Except.error PyErr.valueError
        | some n => Except.ok [Call.set_count_window s n] := rfl

/-- Reduction of the elif chain at the set-validity action. -/
theorem targetBranch_validity (pd : Value → String)
    (ho : List (String × Value)) (s : String) :
    TokenEventHandler.targetBranch pd ACTION_TYPE.SET_VALIDITY ho s
      = Except.ok
          ((if optTruthy (getopt ho VALIDITY.START) then
              [Call.set_validity_period_start s
                (pd ((getopt ho VALIDITY.START).getD (Value.str "")))]
            else []) ++
           (if optTruthy (getopt ho VALIDITY.END) then
              [Call.set_validity_period_end s
                (pd ((getopt ho VALIDITY.END).getD (Value.str "")))]
            else [])) := rfl

/-- C6 (amended): set-countwindow parses the configured value with
Python `int()`; the default 50 applies only when the option is entirely
absent; a present but unparseable value raises `ValueError` and makes no
call; otherwise the parsed integer is set as the count window. -/
theorem C6_countwindow_default_only_when_absent :
    ∀ pd ctx content s,
      ctx.responseData = some content →
      resolveSerial ctx.requestSerial (contentDetailSerial content)
        ctx.auditSerial = some s →
      s ≠ "" →
      (getopt ctx.handlerOptions "count window" = none →
        TokenEventHandler.doAction pd ACTION_TYPE.SET_COUNTWINDOW ctx
          = Except.ok (true, [Call.set_count_window s 50]))
      ∧ (∀ v n, getopt ctx.handlerOptions "count window" = some v →
          pyInt v = some n →
          TokenEventHandler.doAction pd ACTION_TYPE.SET_COUNTWINDOW ctx
            = Except.ok (true, [Call.set_count_window s n]))
      ∧ (∀ v, getopt ctx.handlerOptions "count window" = some v →
          pyInt v = none →
          TokenEventHandler.doAction pd ACTION_TYPE.SET_COUNTWINDOW ctx
            = Except.error PyErr.valueError) := by
  intro pd ctx content s hrd hser hs
  have hd := doAction_target pd ACTION_TYPE.SET_COUNTWINDOW ctx content s hrd
    (by decide) hser hs
  rw [targetBranch_countwindow] at hd
  refine ⟨?_, ?_, ?_⟩
  · intro hnone
    rw [hd]
    simp [getoptD, hnone, pyInt]
  · intro v n hv hn
    rw [hd]
    simp [getoptD, hv, hn]
  · intro v hv hn
    rw [hd]
    simp [getoptD, hv, hn]

/-- Witness for C6 at a concrete input: with the option entirely absent
the count window is set to the default 50. -/
theorem C6_countwindow_default_only_when_absent_witness :
    TokenEventHandler.doAction pdConst ACTION_TYPE.SET_COUNTWINDOW ctxEnable
      = Except.ok (true, [Call.set_count_window "S" 50]) :=
  (C6_countwindow_default_only_when_absent pdConst ctxEnable
    { detail := none } "S" rfl rfl (by decide)).1 rfl

/-- Concrete context: set-countwindow configured with the unparseable
value "abc". -/
def ctxCountWindow : EventContext :=
  { requestSerial := some "S123", responseData := some { detail := none },
    auditSerial := none,
    handlerOptions := [("count window", Value.str "abc")] }

/-- Counterexample to C6 as stated: with "count window" present but
unparseable, `do` raises `ValueError` instead of defaulting to 50. -/
theorem C6_counterexample_unparseable_raises :
    TokenEventHandler.doAction pdConst ACTION_TYPE.SET_COUNTWINDOW
        ctxCountWindow = Except.error PyErr.valueError
    ∧ TokenEventHandler.doAction pdConst ACTION_TYPE.SET_COUNTWINDOW
        ctxCountWindow
      ≠ Except.ok (true, [Call.set_count_window "S123" 50]) := by
  have h1 : TokenEventHandler.doAction pdConst ACTION_TYPE.SET_COUNTWINDOW
      ctxCountWindow = Except.error PyErr.valueError := rfl
  exact ⟨h1, by rw [h1]; simp⟩

/-- C7: the two validity bounds are resolved and persisted independently
and only when present: only a truthy "valid from" yields exactly the
start-setting call, only a truthy "valid till" yields exactly the
end-setting call, both yield both, neither yields no call. -/
theorem C7_validity_bounds_independent :
    ∀ pd ctx content s,
      ctx.responseData = some content →
      resolveSerial ctx.requestSerial (contentDetailSerial content)
        ctx.auditSerial = some s →
      s ≠ "" →
      (∀ v, getopt ctx.handlerOptions VALIDITY.START = some v →
        v.truthy = true →
        getopt ctx.handlerOptions VALIDITY.END = none →
        TokenEventHandler.doAction pd ACTION_TYPE.SET_VALIDITY ctx
          = Except.ok (true, [Call.set_validity_period_start s (pd v)]))
      ∧ (∀ v, getopt ctx.handlerOptions VALIDITY.START = none →
          getopt ctx.handlerOptions VALIDITY.END = some v →
          v.truthy = true →
          TokenEventHandler.doAction pd ACTION_TYPE.SET_VALIDITY ctx
            = Except.ok (true, [Call.set_validity_period_end s (pd v)]))
      ∧ (∀ v w, getopt ctx.handlerOptions VALIDITY.START = some v →
          v.truthy = true →
          getopt ctx.handlerOptions VALIDITY.END = some w →
          w.truthy = true →
          TokenEventHandler.doAction pd ACTION_TYPE.SET_VALIDITY ctx
            = Except.ok (true,
                [Call.set_validity_period_start s (pd v),
                 Call.set_validity_period_end s (pd w)]))
      ∧ (getopt ctx.handlerOptions VALIDITY.START = none →
          getopt ctx.handlerOptions VALIDITY.END = none →
          TokenEventHandler.doAction pd ACTION_TYPE.SET_VALIDITY ctx
            = Except.ok (true, [])) := by
  intro pd ctx content s hrd hser hs
  have hd := doAction_target pd ACTION_TYPE.SET_VALIDITY ctx content s hrd
    (by decide) hser hs
  rw [targetBranch_validity] at hd
  refine ⟨?_, ?_, ?_, ?_⟩
  · intro v hv htr hend
    rw [hd]
    simp [optTruthy, hv, htr, hend]
  · intro v hstart hv htr
    rw [hd]
    simp [optTruthy, hv, htr, hstart]
  · intro v w hv htv hw htw
    rw [hd]
    simp [optTruthy, hv, htv, hw, htw]
  · intro hstart hend
    rw [hd]
    simp [optTruthy, hstart, hend]

/-- Concrete context: set-validity configured with only a relative
"valid from" expression. -/
def ctxValidFrom : EventContext :=
  { requestSerial := some "S", responseData := some { detail := none },
    auditSerial := none,
    handlerOptions := [("valid from", Value.str "+1d")] }

/-- Witness for C7 at a concrete input: only "valid from" is configured,
so exactly the start bound is persisted and the end bound is untouched. -/
theorem C7_validity_bounds_independent_witness :
    TokenEventHandler.doAction pdConst ACTION_TYPE.SET_VALIDITY ctxValidFrom
      = Except.ok (true,
          [Call.set_validity_period_start "S"
            (pdConst (Value.str "+1d"))]) :=
  (C7_validity_bounds_independent pdConst ctxValidFrom { detail := none }
    "S" rfl rfl (by decide)).1 (Value.str "+1d") rfl (by decide) rfl

/-- C4: for enroll, an owner lookup happens exactly when the configured
"user" value is the string "1", the integer 1 or the boolean True, and
the three representations produce the identical trace (lookup, then
creation with an owner); an absent "user" option or any other value
attaches no owner. -/
theorem C4_enroll_user_tri_coercion :
    ∀ pd ctx content,
      ctx.responseData = some content →
      ((getopt ctx.handlerOptions "user" = some (Value.str "1")
        ∨ getopt ctx.handlerOptions "user" = some (Value.int 1)
        ∨ getopt ctx.handlerOptions "user" = some (Value.bool true)) →
        TokenEventHandler.doAction pd ACTION_TYPE.INIT ctx
          = Except.ok (true,
              [Call.get_tokenowner,
               Call.init_token (getopt ctx.handlerOptions "tokentype")
                 (getoptD ctx.handlerOptions "realm" (Value.str "")) true]))
      ∧ ((∀ v, getopt ctx.handlerOptions "user" = some v →
            v ≠ Value.str "1" ∧ v ≠ Value.int 1 ∧ v ≠ Value.bool true) →
        TokenEventHandler.doAction pd ACTION_TYPE.INIT ctx
          = Except.ok (true,
              [Call.init_token (getopt ctx.handlerOptions "tokentype")
                 (getoptD ctx.handlerOptions "realm" (Value.str "")) false])) := by
  intro pd ctx content hrd
  rw [doAction_enroll pd ctx content hrd]
  constructor
  · intro hu
    have hflag : userFlag (getopt ctx.handlerOptions "user") = true := by
      rcases hu with h | h | h <;> rw [h] <;> decide
    unfold TokenEventHandler.enrollBranch
    rw [hflag]
    simp
  · intro hother
    have hflag : userFlag (getopt ctx.handlerOptions "user") = false := by
      cases hu : getopt ctx.handlerOptions "user" with
      | none => rfl
      | some v =>
        obtain ⟨h1, h2, h3⟩ := hother v hu
        rw [Bool.eq_false_iff]
        intro ht
        rcases (userFlag_iff v).mp ht with h | h | h
        · exact h1 h
        · exact h2 h
        · exact h3 h
    unfold TokenEventHandler.enrollBranch
    rw [hflag]
    simp

/-- Concrete context: enroll with the integer 1 as "user" flag and a
configured token type. -/
def ctxEnrollUser : EventContext :=
  { requestSerial := none, responseData := some { detail := none },
    auditSerial := none,
    handlerOptions := [("user", Value.int 1), ("tokentype", Value.str "totp")] }

/-- Concrete context: enroll with a "user" value that is none of the
three truthy representations. -/
def ctxEnrollOther : EventContext :=
  { requestSerial := none, responseData := some { detail := none },
    auditSerial := none,
    handlerOptions := [("user", Value.str "yes")] }

/-- Witness for C4 at concrete inputs: "user" = integer 1 triggers the
owner lookup before the creation call; "user" = "yes" attaches no owner. -/
theorem C4_enroll_user_tri_coercion_witness :
    TokenEventHandler.doAction pdConst ACTION_TYPE.INIT ctxEnrollUser
      = Except.ok (true,
          [Call.get_tokenowner,
           Call.init_token (some (Value.str "totp")) (Value.str "") true])
    ∧ TokenEventHandler.doAction pdConst ACTION_TYPE.INIT ctxEnrollOther
      = Except.ok (true,
          [Call.init_token none (Value.str "") false]) :=
  ⟨(C4_enroll_user_tri_coercion pdConst ctxEnrollUser { detail := none }
      rfl).1 (Or.inr (Or.inl rfl)),
   (C4_enroll_user_tri_coercion pdConst ctxEnrollOther { detail := none }
      rfl).2 (by
        intro v hv
        have hv' : some (Value.str "yes") = some v := hv
        injection hv' with h
        subst h
        exact ⟨by decide, by decide, by decide⟩)⟩

/-- Mutation counts add over concatenated traces. -/
theorem countMutations_append (a b : List Call) :
    countMutations (a ++ b) = countMutations a + countMutations b := by
  simp [countMutations, List.filter_append]

/-- The enroll branch performs exactly one mutation (the creation call);
the optional owner lookup is read-only. -/
theorem enrollBranch_mutations (ho : List (String × Value)) :
    countMutations (TokenEventHandler.enrollBranch ho) = 1 := by
  unfold TokenEventHandler.enrollBranch
  by_cases h : userFlag (getopt ho "user") = true
  · rw [if_pos h]; rfl
  · rw [if_neg h]; rfl

set_option maxHeartbeats 2000000 in
/-- A successful run of the elif chain performs at most one mutation,
except set-validity which performs at most two. -/
theorem targetBranch_mutations (pd : Value → String) (action : String)
    (ho : List (String × Value)) (s : String) (c : List Call)
    (h : TokenEventHandler.targetBranch pd action ho s = Except.ok c) :
    countMutations c
      ≤ if pyLower action = ACTION_TYPE.SET_VALIDITY then 2 else 1 := by
  unfold TokenEventHandler.targetBranch at h
  split_ifs at h with h1 h2 h3 h4 h5 h6 h7 h8 h9
  · rw [beq_iff_eq] at h1
    injection h with h
    subst h
    rw [h1, if_neg (by decide)]
    exact Nat.le_refl 1
  · rw [beq_iff_eq] at h2
    injection h with h
    subst h
    rw [h2, if_neg (by decide)]
    exact Nat.le_refl 1
  · rw [beq_iff_eq] at h3
    injection h with h
    subst h
    rw [h3, if_neg (by decide)]
    exact Nat.le_refl 1
  · rw [beq_iff_eq] at h4
    injection h with h
    subst h
    rw [h4, if_neg (by decide)]
    exact Nat.le_refl 1
  · rw [beq_iff_eq] at h5
    injection h with h
    subst h
    rw [h5, if_neg (by decide)]
    exact Nat.le_refl 1
  · rw [beq_iff_eq] at h6
    injection h with h
    subst h
    rw [h6, if_neg (by decide)]
    exact Nat.le_refl 1
  · rw [beq_iff_eq] at h7
    rw [h7, if_neg (by decide)]
    split at h
    · exact absurd h (by simp)
    · injection h with h
      subst h
      exact Nat.le_refl 1
  · rw [beq_iff_eq] at h8
    injection h with h
    subst h
    rw [h8, if_neg (by decide)]
    exact Nat.le_refl 1
  · rw [beq_iff_eq] at h9
    injection h with h
    subst h
    rw [h9, if_pos rfl, countMutations_append]
    have ha : countMutations (if optTruthy (getopt ho VALIDITY.START) = true
        then [Call.set_validity_period_start s
          (pd ((getopt ho VALIDITY.START).getD (Value.str "")))] else [])
        ≤ 1 := by
      split
      · exact Nat.le_refl 1
      · exact Nat.zero_le 1
    have hb : countMutations (if optTruthy (getopt ho VALIDITY.END) = true
        then [Call.set_validity_period_end s
          (pd ((getopt ho VALIDITY.END).getD (Value.str "")))] else [])
        ≤ 1 := by
      split
      · exact Nat.le_refl 1
      · exact Nat.zero_le 1
    omega
  · injection h with h
    subst h
    exact le_trans (Nat.zero_le 1) (by split <;> omega)

set_option maxHeartbeats 2000000 in
/-- C8 (amended): a single invocation of `do` performs at most one
collaborator mutation, except set-validity, which performs one mutation
per configured bound (at most two); enroll performs its single creation
mutation, preceded by a read-only owner lookup when the user flag is
set. -/
theorem C8_mutation_bound :
    ∀ pd action ctx b t,
      TokenEventHandler.doAction pd action ctx = Except.ok (b, t) →
      countMutations t
        ≤ if pyLower action = ACTION_TYPE.SET_VALIDITY then 2 else 1 := by
  intro pd action ctx b t h
  have hrhs : (1 : Nat)
      ≤ if pyLower action = ACTION_TYPE.SET_VALIDITY then 2 else 1 := by
    split <;> omega
  cases hrd : ctx.responseData with
  | none =>
    rw [TokenEventHandler.doAction, hrd] at h
    exact absurd h (by simp)
  | some content =>
    simp only [TokenEventHandler.doAction, hrd] at h
    split at h
    · exact absurd h (by simp)
    · rename_i c1 heq
      simp only [Except.ok.injEq, Prod.mk.injEq] at h
      obtain ⟨hb, ht⟩ := h
      subst ht
      rw [countMutations_append]
      by_cases hmem : pyLower action ∈ targetActions
      · rw [if_pos hmem] at heq
        have hne := mem_targetActions_ne_init hmem
        rw [hne] at *
        simp only [Bool.false_eq_true, if_false, countMutations] at *
        by_cases hser : strTruthy (resolveSerial ctx.requestSerial
            (contentDetailSerial content) ctx.auditSerial) = true
        · rw [if_pos hser] at heq
          have hc1 := targetBranch_mutations pd action ctx.handlerOptions
            _ c1 heq
          simpa [countMutations] using hc1
        · rw [if_neg hser] at heq
          injection heq with heq
          subst heq
          simpa [countMutations] using hrhs.trans (le_refl _)
      · rw [if_neg hmem] at heq
        injection heq with heq
        subst heq
        by_cases hinit : (pyLower action == ACTION_TYPE.INIT) = true
        · rw [if_pos hinit]
          rw [show countMutations
            (TokenEventHandler.enrollBranch ctx.handlerOptions) = 1 from
            enrollBranch_mutations ctx.handlerOptions]
          simpa [countMutations] using hrhs
        · rw [if_neg hinit]
          simpa [countMutations] using Nat.zero_le _

/-- Concrete context: set-validity configured with both bounds. -/
def ctxValidityBoth : EventContext :=
  { requestSerial := some "S", responseData := some { detail := none },
    auditSerial := none,
    handlerOptions := [("valid from", Value.str "+10m"),
                       ("valid till", Value.str "+24h")] }

/-- Counterexample to C8 as stated: the set-validity action, which is
not enroll, performs two collaborator mutations when both bounds are
configured. -/
theorem C8_counterexample_set_validity_two_mutations :
    countMutations (callsOf (TokenEventHandler.doAction pdConst
        ACTION_TYPE.SET_VALIDITY ctxValidityBoth)) = 2
    ∧ ACTION_TYPE.SET_VALIDITY ≠ ACTION_TYPE.INIT :=
  ⟨rfl, by decide⟩

/-- Witness for C8 at a concrete input: the two-bound set-validity run
stays within the bound of two mutations. -/
theorem C8_mutation_bound_witness :
    countMutations
        [Call.set_validity_period_start "S" (pdConst (Value.str "+10m")),
         Call.set_validity_period_end "S" (pdConst (Value.str "+24h"))]
      ≤ if pyLower ACTION_TYPE.SET_VALIDITY = ACTION_TYPE.SET_VALIDITY
        then 2 else 1 :=
  C8_mutation_bound pdConst ACTION_TYPE.SET_VALIDITY ctxValidityBoth true
    [Call.set_validity_period_start "S" (pdConst (Value.str "+10m")),
     Call.set_validity_period_end "S" (pdConst (Value.str "+24h"))]
    (by rfl)
